import Mathlib

/-!
Verification of the message-dispatch core of the actor framework:
the `caf::mixin::sender` send-function family and its compile-time
protocol validator (`src/libcaf_core/caf/mixin/sender.hpp`), plus the
`reverse_type_list` meta-function exercised by
`src/unit_testing/test__type_list.cpp`.

Modelling conventions:
* A message shape (the `detail::type_list<...>` of stripped argument
  types) is a list of type names (`Shape`).
* A statically typed actor carries its signature set (input shape and
  reply shape per entry); a dynamically typed actor carries none.
* Compile-time rejection (a failing `static_assert`) is modelled as the
  `Except.error` branch carrying the exact diagnostic string; a call
  that compiles and runs returns `Except.ok` with the list of runtime
  effects (enqueues and clock schedulings) it performs.
-/

namespace Caf

/-- A message shape: the ordered list of (stripped, converted) argument
type names, i.e. the `detail::type_list<detail::strip_and_convert_t<Ts>...>`
token passed to `type_check`. -/
abbrev Shape := List String

/-- The reply produced by a destination for a given input shape, as computed
by `response_type_unbox`: `voidReply` for a void response entry,
`dynamicReply` for the unconstrained `message` type produced when the
destination is dynamically typed, `shape s` for a concrete reply shape. -/
inductive ReplyShape
  | voidReply
  | dynamicReply
  | shape (s : Shape)
deriving DecidableEq, Repr

/-- One entry of a statically typed actor's signature set: an accepted
input shape together with the reply shape it produces. -/
structure Signature where
  input : Shape
  output : ReplyShape
deriving DecidableEq, Repr

/-- The compile-time interface of an actor (or of a handle type):
dynamically typed (accepted set unconstrained, `signatures_of_t` is
`none_t`) or statically typed with a finite signature set. -/
inductive ActorType
  | dynamic
  | static (sigs : List Signature)
deriving DecidableEq, Repr

/-- The `statically_typed<T>()` predicate. -/
def statically_typed : ActorType → Bool
  | .dynamic => false
  | .static _ => true

/-- The result of `response_type_unbox<signatures_of_t<Dest>, ArgTypes>`:
`none` when `rt::valid` is false (no matching entry), otherwise the reply
shape `rt::type`. A dynamically typed destination (`none_t` signatures)
is always valid with the type-erased `message` reply. -/
def responseTypeUnbox : ActorType → Shape → Option ReplyShape
  | .dynamic, _ => some .dynamicReply
  | .static sigs, args => (sigs.find? (fun sig => sig.input == args)).map (·.output)

/-- The `is_void_response<T>` predicate. -/
def is_void_response : ReplyShape → Bool
  | .voidReply => true
  | _ => false

/-- Whether an actor's signature set accepts a reply shape, i.e.
`response_type_unbox<signatures_of_t<Self>, rt::type>::valid`: a
dynamically typed actor accepts anything, the type-erased `message`
reply is accepted by everyone, and a concrete shape must match some
entry's input. -/
def acceptsReply : ActorType → ReplyShape → Bool
  | .dynamic, _ => true
  | .static _, .dynamicReply => true
  | .static _, .voidReply => true
  | .static sigs, .shape s => sigs.any (fun sig => sig.input == s)

/-- Membership of a shape in a statically typed actor's accepted-input
set (used to state the claims about `type_check`). -/
def acceptsInput (sigs : List Signature) (s : Shape) : Bool :=
  sigs.any (fun sig => sig.input == s)

/-- `sender::type_check(dest, args_token)`: the three `static_assert`s,
in source order, each modelled as the `Except.error` carrying its
diagnostic; success means the call compiles. -/
def type_check (self dest : ActorType) (args : Shape) : Except String Unit :=
  if statically_typed self && !statically_typed dest then
    .error "statically typed actors are only allowed to send() to other statically typed actors; use anon_send() or request() when communicating with dynamically typed actors"
  else
    match responseTypeUnbox dest args with
    | none => .error "receiver does not accept given message"
    | some rt =>
      if is_void_response rt || acceptsReply self rt then .ok ()
      else .error "this actor does not accept the response message"

/-- An actor's identity: the reference to its control block
(`strong_actor_ptr` target). -/
abbrev ActorId := Nat

/-- A group identity. -/
abbrev GroupId := Nat

/-- A point on the monotonic actor clock (`actor_clock::time_point`). -/
abbrev Time := Int

/-- A relative duration (`std::chrono::duration<Rep, Period>`). -/
abbrev Duration := Int

/-- One message argument: its stripped type name together with its value
(values are abstracted to naturals; only the type name participates in
protocol validation). -/
structure Val where
  ty : String
  value : Nat
deriving DecidableEq, Repr

/-- A message payload: the ordered argument pack `xs...`. -/
abbrev Payload := List Val

/-- The shape of a payload: the `detail::type_list` of its stripped
argument types. -/
def shapeOf (p : Payload) : Shape := p.map (·.ty)

/-- `message_priority`. -/
inductive Priority
  | normal
  | high
deriving DecidableEq, Repr

/-- A message id as produced by `make_message_id(P)`: an asynchronous
(zero-correlation) id carrying the priority tier. -/
structure MessageId where
  priority : Priority
deriving DecidableEq, Repr

/-- `make_message_id(P)`. -/
def make_message_id (p : Priority) : MessageId := ⟨p⟩

/-- A mailbox element / message envelope as built by
`make_mailbox_element(sender, mid, stages, xs...)` (and by `eq_impl`):
sender identity (`none` for anonymous sends), message id, forwarding
stages, and the payload. -/
structure Envelope where
  sender : Option ActorId
  mid : MessageId
  stages : List ActorId
  content : Payload
deriving DecidableEq, Repr

/-- A runtime effect of a send-family call: a direct `eq_impl` enqueue
at a destination, a `clock.schedule_message` of a mailbox element for an
actor destination, or a `clock.schedule_message` of a plain message for
a group destination. -/
inductive Effect
  | enqueue (dest : ActorId) (elem : Envelope)
  | scheduleMsg (t : Time) (dest : ActorId) (elem : Envelope)
  | scheduleGroupMsg (t : Time) (g : GroupId) (sender : ActorId) (content : Payload)
deriving DecidableEq, Repr

/-- A destination handle (`Dest` such as `actor` or `typed_actor<...>`):
its compile-time interface type plus its runtime target, `none` when the
handle is null (so `if (dest)` is false). -/
structure Handle where
  ty : ActorType
  target : Option ActorId
deriving DecidableEq, Repr

/-- A group handle: `none` when null. -/
abbrev GroupHandle := Option GroupId

/-- The calling actor's context: the `Subtype`'s compile-time interface,
its control block (`dptr()->ctrl()`), and the clock reading
`clock.now()` taken at call time. -/
structure SelfCtx where
  ty : ActorType
  id : ActorId
  now : Time
deriving DecidableEq, Repr

/-- `sender::send(dest, xs...)` for a typed destination handle:
compile-time checks (`sizeof...(Ts) > 0`, then `type_check`), then, if
the handle is non-null, one `eq_impl` enqueue of the payload with the
caller's strong identity as sender and no stages. -/
def send (self : SelfCtx) (P : Priority) (dest : Handle) (xs : Payload) :
    Except String (List Effect) :=
  if xs = [] then .error "no message to send"
  else match type_check self.ty dest.ty (shapeOf xs) with
    | .error e => .error e
    | .ok () =>
      match dest.target with
      | none => .ok []
      | some d => .ok [.enqueue d ⟨some self.id, make_message_id P, [], xs⟩]

/-- `sender::send(const strong_actor_ptr& dest, xs...)`: the
address-only overload; statically typed callers are rejected by
`static_assert`, otherwise a non-null pointer receives one enqueue. -/
def send_addr (self : SelfCtx) (P : Priority) (dest : Option ActorId)
    (xs : Payload) : Except String (List Effect) :=
  if xs = [] then .error "no message to send"
  else if statically_typed self.ty then
    .error "statically typed actors can only send() to other statically typed actors; use anon_send() or request() when communicating with dynamically typed actors"
  else match dest with
    | none => .ok []
    | some d => .ok [.enqueue d ⟨some self.id, make_message_id P, [], xs⟩]

/-- `sender::scheduled_send(dest, timeout, xs...)` for a non-group
destination: compile-time checks, then, if the handle is non-null, one
`clock.schedule_message` of a mailbox element at the given absolute
time point. -/
def scheduled_send (self : SelfCtx) (P : Priority) (dest : Handle)
    (timeout : Time) (xs : Payload) : Except String (List Effect) :=
  if xs = [] then .error "no message to send"
  else match type_check self.ty dest.ty (shapeOf xs) with
    | .error e => .error e
    | .ok () =>
      match dest.target with
      | none => .ok []
      | some d =>
        .ok [.scheduleMsg timeout d ⟨some self.id, make_message_id P, [], xs⟩]

/-- `sender::scheduled_send(const group& dest, timeout, xs...)`:
statically typed callers are rejected by `static_assert`; a non-null
group receives one `clock.schedule_message` of a plain message with the
caller's identity. -/
def scheduled_send_group (self : SelfCtx) (dest : GroupHandle)
    (timeout : Time) (xs : Payload) : Except String (List Effect) :=
  if xs = [] then .error "no message to send"
  else if statically_typed self.ty then
    .error "statically typed actors are not allowed to send to groups"
  else match dest with
    | none => .ok []
    | some g => .ok [.scheduleGroupMsg timeout g self.id xs]

/-- `sender::delayed_send(dest, rel_timeout, xs...)` for a non-group
destination: same as `scheduled_send` with the absolute time
`clock.now() + rel_timeout` computed at call time. -/
def delayed_send (self : SelfCtx) (P : Priority) (dest : Handle)
    (rel_timeout : Duration) (xs : Payload) : Except String (List Effect) :=
  if xs = [] then .error "no message to send"
  else match type_check self.ty dest.ty (shapeOf xs) with
    | .error e => .error e
    | .ok () =>
      match dest.target with
      | none => .ok []
      | some d =>
        .ok [.scheduleMsg (self.now + rel_timeout) d
               ⟨some self.id, make_message_id P, [], xs⟩]

/-- `sender::delayed_send(const group& dest, rtime, xs...)`: statically
typed callers are rejected by `static_assert`; a non-null group receives
one `clock.schedule_message` at `clock.now() + rtime`. -/
def delayed_send_group (self : SelfCtx) (dest : GroupHandle)
    (rtime : Duration) (xs : Payload) : Except String (List Effect) :=
  if xs = [] then .error "no message to send"
  else if statically_typed self.ty then
    .error "statically typed actors are not allowed to send to groups"
  else match dest with
    | none => .ok []
    | some g => .ok [.scheduleGroupMsg (self.now + rtime) g self.id xs]

/-- Modelled from the spec: `caf::anon_send` (defined in `caf/send.hpp`,
which is not part of this fragment; `sender::anon_send` merely forwards
to it). Per the spec, the payload must be non-empty (rejected before any
work begins), a null handle is a silent no-op, and on success exactly
one envelope reaches the destination with the sender field empty. -/
def anon_send (dest : Handle) (P : Priority) (xs : Payload) :
    Except String (List Effect) :=
  if xs = [] then .error "no message to send"
  else match dest.target with
    | none => .ok []
    | some d => .ok [.enqueue d ⟨none, make_message_id P, [], xs⟩]

/-- Modelled from the spec: `caf::delayed_anon_send` (defined in
`caf/send.hpp`, not part of this fragment; `sender::delayed_anon_send`
merely forwards to it). Per the spec, the payload must be non-empty,
a null handle is a silent no-op, and on success one envelope with an
empty sender field is handed to the clock to fire after the relative
duration. -/
def delayed_anon_send (self : SelfCtx) (dest : Handle) (P : Priority)
    (rtime : Duration) (xs : Payload) : Except String (List Effect) :=
  if xs = [] then .error "no message to send"
  else match dest.target with
    | none => .ok []
    | some d =>
      .ok [.scheduleMsg (self.now + rtime) d ⟨none, make_message_id P, [], xs⟩]

/-- Modelled from the spec: the monotonic clock service's guarantee for
`schedule(at, ...)` — the delivery attempt happens at or after `at`,
never before. The clock itself is an external collaborator of this core;
only this interface contract is available. -/
def clock_delivers_at (scheduled deliver : Time) : Prop :=
  scheduled ≤ deliver

/-- Modelled from the spec: the `reverse_type_list` meta-function of the
`cppa::util` type-list library — its implementation is not part of this
fragment, only the unit test `test__type_list.cpp` that exercises it.
It is the structural reversal of a type list, modelled by the standard
recursion such meta-programs use. -/
def reverse_type_list : Shape → Shape
  | [] => []
  | x :: xs => reverse_type_list xs ++ [x]

/-- Example statically typed actor: accepts shape `["b"]`, replying with
shape `["c"]`. Used to exhibit the one-directional response check. -/
def pingType : ActorType := .static [⟨["b"], .shape ["c"]⟩]

/-- Example statically typed actor: accepts shape `["a"]`, replying with
shape `["b"]`. -/
def pongType : ActorType := .static [⟨["a"], .shape ["b"]⟩]

-- helper lemmas --------------------------------------------------------------

theorem reverse_type_list_eq_reverse (l : Shape) :
    reverse_type_list l = l.reverse := by
  induction l with
  | nil => rfl
  | cons x xs ih => simp [reverse_type_list, ih]

theorem responseTypeUnbox_static_none (sigs : List Signature) (args : Shape) :
    responseTypeUnbox (.static sigs) args = none ↔
      acceptsInput sigs args = false := by
  simp [responseTypeUnbox, acceptsInput, List.find?_eq_none, List.any_eq_true]

-- claim theorems -------------------------------------------------------------

/-- C1 (counterexample): as stated, the claim's "if and only if" is false.
With a caller of empty signature set and a destination whose only entry
accepts shape `["a"]` but replies with shape `["b"]`, the payload shape
`["a"]` is a member of the destination's accepted-input set, yet
`type_check` does not succeed — it fails the response check instead. -/
theorem C1_counterexample :
    acceptsInput [⟨["a"], ReplyShape.shape ["b"]⟩] ["a"] = true ∧
    type_check (.static []) (.static [⟨["a"], ReplyShape.shape ["b"]⟩]) ["a"] =
      .error "this actor does not accept the response message" :=
  ⟨by decide, rfl⟩

/-- C1 (amended): for a statically typed caller and a statically typed
destination, membership of the payload shape in the destination's
accepted-input set is necessary for `type_check` to succeed, and when
the shape is not a member, validation fails with precisely the
diagnostic "receiver does not accept given message". (Membership alone
is not sufficient: the response check may still reject the call.) -/
theorem C1_membership_necessary (self : ActorType) (sigs : List Signature)
    (args : Shape) (hs : statically_typed self = true) :
    (type_check self (.static sigs) args = .ok () →
       acceptsInput sigs args = true) ∧
    (acceptsInput sigs args = false →
       type_check self (.static sigs) args =
         .error "receiver does not accept given message") := by
  constructor
  · intro h
    cases hacc : acceptsInput sigs args
    · have hnone := (responseTypeUnbox_static_none sigs args).mpr hacc
      simp [type_check, hnone, statically_typed] at h
    · rfl
  · intro hfalse
    have hnone := (responseTypeUnbox_static_none sigs args).mpr hfalse
    simp [type_check, hnone, statically_typed]

/-- C1 (witness): a statically typed caller sending shape `["b"]` to a
destination that only accepts `["a"]` fails with the membership
diagnostic. -/
theorem C1_membership_necessary_witness :
    type_check (.static []) (.static [⟨["a"], ReplyShape.voidReply⟩]) ["b"] =
      .error "receiver does not accept given message" :=
  (C1_membership_necessary (.static []) [⟨["a"], ReplyShape.voidReply⟩]
    ["b"] rfl).2 rfl

/-- C2: for a statically typed caller whose payload matches a destination
entry producing a non-void reply shape `r`, `type_check` succeeds exactly
when the caller's own signature set accepts `r`, and otherwise fails with
the diagnostic "this actor does not accept the response message"; and
only this one direction is checked — the concrete pair `pingType` /
`pongType` passes the forward check although the destination does not
in turn accept the caller's reply shape (the reverse check fails). -/
theorem C2_response_check (self dest : ActorType) (args r : Shape)
    (hs : statically_typed self = true)
    (hr : responseTypeUnbox dest args = some (.shape r)) :
    (((type_check self dest args = .ok ()) ↔
        acceptsReply self (.shape r) = true) ∧
     (acceptsReply self (.shape r) = false →
        type_check self dest args =
          .error "this actor does not accept the response message")) ∧
    (type_check pingType pongType ["a"] = .ok () ∧
     type_check pongType pingType ["b"] =
       .error "this actor does not accept the response message") := by
  obtain ⟨sigs, rfl⟩ : ∃ sigs, dest = .static sigs := by
    cases dest
    · simp [responseTypeUnbox] at hr
    · exact ⟨_, rfl⟩
  refine ⟨?_, rfl, rfl⟩
  cases h : acceptsReply self (.shape r) <;>
    simp [type_check, hr, statically_typed, is_void_response, h]

/-- C2 (witness): `pingType` accepts the reply shape `["b"]` that
`pongType` produces for `["a"]`, so the check succeeds there. -/
theorem C2_response_check_witness :
    (type_check pingType pongType ["a"] = .ok ()) ↔
      acceptsReply pingType (.shape ["b"]) = true :=
  ((C2_response_check pingType pongType ["a"] ["b"] rfl rfl).1).1

/-- C3: for any payload and priority, a call of `send`, `scheduled_send`
or `delayed_send` that compiles (non-empty payload, `type_check` passes)
but whose destination handle is null performs no effect at all — no
enqueue, no clock scheduling, no error: it returns the empty effect
list. -/
theorem C3_null_dest_noop (self : SelfCtx) (P : Priority) (ty : ActorType)
    (timeout : Time) (rel : Duration) (xs : Payload) (hne : xs ≠ [])
    (hck : type_check self.ty ty (shapeOf xs) = .ok ()) :
    send self P ⟨ty, none⟩ xs = .ok [] ∧
    scheduled_send self P ⟨ty, none⟩ timeout xs = .ok [] ∧
    delayed_send self P ⟨ty, none⟩ rel xs = .ok [] := by
  refine ⟨?_, ?_, ?_⟩ <;> simp [send, scheduled_send, delayed_send, hne, hck]

/-- C3 (witness): a dynamically typed caller sending to a null handle of
a dynamically typed destination performs no effect. -/
theorem C3_null_dest_noop_witness :
    send ⟨.dynamic, 7, 0⟩ .normal ⟨.dynamic, none⟩ [⟨"int", 1⟩] = .ok [] ∧
    scheduled_send ⟨.dynamic, 7, 0⟩ .normal ⟨.dynamic, none⟩ 5
      [⟨"int", 1⟩] = .ok [] ∧
    delayed_send ⟨.dynamic, 7, 0⟩ .normal ⟨.dynamic, none⟩ 3
      [⟨"int", 1⟩] = .ok [] :=
  C3_null_dest_noop ⟨.dynamic, 7, 0⟩ .normal .dynamic 5 3 [⟨"int", 1⟩]
    (by simp) rfl

/-- C4: a compiling `send` to a non-null destination performs exactly one
enqueue, and the enqueued element carries the payload with the sender
field set to the caller's strong identity (its control block). -/
theorem C4_send_enqueues_once (self : SelfCtx) (P : Priority)
    (ty : ActorType) (d : ActorId) (xs : Payload) (hne : xs ≠ [])
    (hck : type_check self.ty ty (shapeOf xs) = .ok ()) :
    send self P ⟨ty, some d⟩ xs =
      .ok [Effect.enqueue d ⟨some self.id, make_message_id P, [], xs⟩] := by
  simp [send, hne, hck]

/-- C4 (witness): a concrete send performs exactly the one enqueue with
the caller's identity as sender. -/
theorem C4_send_enqueues_once_witness :
    send ⟨.dynamic, 7, 0⟩ .normal ⟨.dynamic, some 9⟩ [⟨"int", 1⟩] =
      .ok [Effect.enqueue 9
        ⟨some 7, make_message_id .normal, [], [⟨"int", 1⟩]⟩] :=
  C4_send_enqueues_once ⟨.dynamic, 7, 0⟩ .normal .dynamic 9 [⟨"int", 1⟩]
    (by simp) rfl

/-- C5: every send-family operation rejects an empty payload at build
time ("no message to send"), before any destination test, validation or
effect: a call with zero message arguments never reaches the runtime
branch. No hypothesis is needed — this holds for every caller, every
destination (null or not) and every timing parameter. -/
theorem C5_empty_payload_rejected (self : SelfCtx) (P : Priority)
    (dest : Handle) (g : GroupHandle) (p : Option ActorId)
    (timeout : Time) (rel : Duration) :
    send self P dest [] = .error "no message to send" ∧
    send_addr self P p [] = .error "no message to send" ∧
    anon_send dest P [] = .error "no message to send" ∧
    scheduled_send self P dest timeout [] = .error "no message to send" ∧
    scheduled_send_group self g timeout [] = .error "no message to send" ∧
    delayed_send self P dest rel [] = .error "no message to send" ∧
    delayed_send_group self g rel [] = .error "no message to send" ∧
    delayed_anon_send self dest P rel [] = .error "no message to send" :=
  ⟨rfl, rfl, rfl, rfl, rfl, rfl, rfl, rfl⟩

/-- C6: the address-only `send` overload (destination a
`strong_actor_ptr`, type unknown) is rejected at build time for every
statically typed caller with the dedicated diagnostic, while a
dynamically typed caller may use it freely (the call compiles and
returns its effects). -/
theorem C6_addr_send_static_disallowed (self : SelfCtx) (P : Priority)
    (p : Option ActorId) (xs : Payload) (hne : xs ≠ []) :
    (statically_typed self.ty = true →
       send_addr self P p xs =
         .error "statically typed actors can only send() to other statically typed actors; use anon_send() or request() when communicating with dynamically typed actors") ∧
    (statically_typed self.ty = false →
       ∃ effs, send_addr self P p xs = .ok effs) := by
  constructor
  · intro h
    simp [send_addr, hne, h]
  · intro h
    cases p with
    | none => exact ⟨[], by simp [send_addr, hne, h]⟩
    | some d =>
        exact ⟨[.enqueue d ⟨some self.id, make_message_id P, [], xs⟩],
               by simp [send_addr, hne, h]⟩

/-- C6 (witness): a statically typed caller cannot use the address-only
overload. -/
theorem C6_addr_send_static_disallowed_witness :
    send_addr ⟨pingType, 7, 0⟩ .normal (some 3) [⟨"a", 0⟩] =
      .error "statically typed actors can only send() to other statically typed actors; use anon_send() or request() when communicating with dynamically typed actors" :=
  (C6_addr_send_static_disallowed ⟨pingType, 7, 0⟩ .normal (some 3)
    [⟨"a", 0⟩] (by simp)).1 rfl

/-- C7: the group overloads of `scheduled_send` and `delayed_send` are
rejected at build time for every statically typed caller with the
diagnostic "statically typed actors are not allowed to send to groups",
while a dynamically typed caller's call compiles and hands exactly one
message to the clock. -/
theorem C7_group_send_static_disallowed (self : SelfCtx) (g : GroupId)
    (timeout : Time) (rel : Duration) (xs : Payload) (hne : xs ≠ []) :
    (statically_typed self.ty = true →
       scheduled_send_group self (some g) timeout xs =
         .error "statically typed actors are not allowed to send to groups" ∧
       delayed_send_group self (some g) rel xs =
         .error "statically typed actors are not allowed to send to groups") ∧
    (statically_typed self.ty = false →
       scheduled_send_group self (some g) timeout xs =
         .ok [Effect.scheduleGroupMsg timeout g self.id xs] ∧
       delayed_send_group self (some g) rel xs =
         .ok [Effect.scheduleGroupMsg (self.now + rel) g self.id xs]) := by
  constructor
  · intro h
    exact ⟨by simp [scheduled_send_group, hne, h],
           by simp [delayed_send_group, hne, h]⟩
  · intro h
    exact ⟨by simp [scheduled_send_group, hne, h],
           by simp [delayed_send_group, hne, h]⟩

/-- C7 (witness): a dynamically typed caller's group sends hand the
message to the clock. -/
theorem C7_group_send_static_disallowed_witness :
    scheduled_send_group ⟨.dynamic, 7, 100⟩ (some 4) 50 [⟨"int", 1⟩] =
      .ok [Effect.scheduleGroupMsg 50 4 7 [⟨"int", 1⟩]] ∧
    delayed_send_group ⟨.dynamic, 7, 100⟩ (some 4) 9 [⟨"int", 1⟩] =
      .ok [Effect.scheduleGroupMsg 109 4 7 [⟨"int", 1⟩]] :=
  (C7_group_send_static_disallowed ⟨.dynamic, 7, 100⟩ 4 50 9 [⟨"int", 1⟩]
    (by simp)).2 rfl

/-- C8: a compiling `delayed_send` to a non-null destination schedules
exactly one mailbox element on the clock at the absolute time
`clock.now() + Δ` computed at call time, and under the clock service's
contract (delivery at or after the scheduled point) the element can
never be delivered earlier than `now() + Δ`. -/
theorem C8_delayed_send_fire_time (self : SelfCtx) (P : Priority)
    (ty : ActorType) (d : ActorId) (rel : Duration) (xs : Payload)
    (hne : xs ≠ [])
    (hck : type_check self.ty ty (shapeOf xs) = .ok ()) :
    delayed_send self P ⟨ty, some d⟩ rel xs =
      .ok [Effect.scheduleMsg (self.now + rel) d
             ⟨some self.id, make_message_id P, [], xs⟩] ∧
    ∀ t : Time, clock_delivers_at (self.now + rel) t → self.now + rel ≤ t := by
  refine ⟨by simp [delayed_send, hne, hck], fun t ht => ht⟩

/-- C8 (witness): a concrete delayed send schedules at `now + Δ`. -/
theorem C8_delayed_send_fire_time_witness :
    delayed_send ⟨.dynamic, 7, 100⟩ .normal ⟨.dynamic, some 9⟩ 25
      [⟨"int", 1⟩] =
      .ok [Effect.scheduleMsg 125 9
             ⟨some 7, make_message_id .normal, [], [⟨"int", 1⟩]⟩] ∧
    ∀ t : Time, clock_delivers_at 125 t → (125 : Time) ≤ t := by
  have h := C8_delayed_send_fire_time ⟨.dynamic, 7, 100⟩ .normal .dynamic 9
    25 [⟨"int", 1⟩] (by simp) rfl
  simpa using h

/-- C9: `delayed_send(dest, Δ, xs)` is observationally equivalent to
`scheduled_send(dest, clock.now() + Δ, xs)` — for every caller,
priority, destination handle and payload the two calls return the same
outcome: the same compile-time diagnostics and, when they compile, the
same single clock scheduling of the same mailbox element at the same
absolute time point. -/
theorem C9_delayed_send_refines_scheduled_send (self : SelfCtx)
    (P : Priority) (dest : Handle) (rel : Duration) (xs : Payload) :
    delayed_send self P dest rel xs =
      scheduled_send self P dest (self.now + rel) xs := rfl

/-- C10: `reverse_type_list` preserves the size of a type list and flips
indices — the element at position `i` of the reversal is the element at
position `size - 1 - i` of the original. -/
theorem C10_reverse_type_list_spec (l : Shape) (i : Nat)
    (h : i < l.length) :
    (reverse_type_list l).length = l.length ∧
    (reverse_type_list l)[i]? = l[l.length - 1 - i]? := by
  rw [reverse_type_list_eq_reverse]
  exact ⟨by simp, List.getElem?_reverse h⟩

/-- C10 (witness): reversing the three-element list of the unit test
preserves its size and puts the last element first. -/
theorem C10_reverse_type_list_spec_witness :
    (reverse_type_list ["int", "float", "std::string"]).length = 3 ∧
    (reverse_type_list ["int", "float", "std::string"])[0]? =
      some "std::string" := by
  have h := C10_reverse_type_list_spec ["int", "float", "std::string"] 0
    (by simp)
  simpa using h

end Caf
